import Mathlib

/-
A shallow embedding of the preschool search, recommendation, featured,
and nearby query pipeline of the PreschoolReviewApp repository, together
with theorems about its behavior.

Sources embedded here:
  - src/src/services/PreschoolService.js   (searchPreschools: filter + paginate)
  - src/unnamed/part_003                   (RecommendationService: recommendations,
                                            featured listing, nearby listing,
                                            match reasons, fallback mock data)
  - src/unnamed/part_002 (data module)     (getPreschoolsNearLocation,
                                            calculateDistance, toRadians)

Modelling conventions:
  - JS numbers used for ratings, counts, pages are embedded as Rat / Nat;
    coordinates and distances (which flow through transcendental functions
    Math.sin, Math.cos, Math.atan2, Math.log, Math.sqrt) are embedded as Real.
  - A JS field that may be absent (undefined) is an Option; the JS truthiness
    guards "if (x)" on strings treat the empty string as absent, and on
    numbers treat 0 as absent, which the definitions below spell out.
  - String.prototype.includes / startsWith / toLowerCase are embedded by the
    executable functions jsIncludes / jsStartsWith / lowerStr below.
  - Array.prototype.sort with a numeric comparator is stable in JS; it is
    embedded as List.mergeSort with the corresponding boolean relation.
  - A JS runtime failure (reading a field of undefined) is embedded in the
    Except monad as JsError.typeError.
-/

/-! ## String primitives (JS semantics) -/

/-- Embedding of String.prototype.toLowerCase (ASCII, as used by the data). -/
def lowerStr (s : String) : String := String.mk (s.data.map Char.toLower)

/-- Boolean test that the first list is an initial segment of the second. -/
def charsPre : List Char → List Char → Bool
  | [], _ => true
  | _ :: _, [] => false
  | a :: n, b :: h => a == b && charsPre n h

/-- Boolean test that the first list occurs contiguously inside the second. -/
def charsSub (n : List Char) : List Char → Bool
  | [] => n.isEmpty
  | b :: h => charsPre n (b :: h) || charsSub n h

/-- Embedding of s.includes(sub) : substring containment. -/
def jsIncludes (s sub : String) : Bool := charsSub sub.toList s.toList

/-- Embedding of s.startsWith(t). -/
def jsStartsWith (s t : String) : Bool := charsPre t.toList s.toList

/-! ## Data model (service-level record, from the mock data shape) -/

/-- A facility record as consumed by PreschoolService / RecommendationService.
Fields that some records lack (the built-in fallback records have no city,
zip_code or program_type) are Options. -/
structure Preschool where
  id : String
  name : String
  description : String
  address : String
  city : Option String
  zip_code : Option String
  rating : ℚ
  reviewCount : ℕ
  tuition : Option String
  ageRange : Option String
  curriculum : Option String
  program_type : Option String
  features : List String
deriving DecidableEq, Repr

/-- The filter specification accepted by searchPreschools. -/
structure SearchFilters where
  minRating : Option ℚ
  ageRange : Option String
  curriculum : Option String
  priceRange : Option String
deriving DecidableEq, Repr

/-- A SearchFilters value with every criterion absent. -/
def noFilters : SearchFilters := ⟨none, none, none, none⟩

/-! ## The search filter (PreschoolService.searchPreschools, lines 66-99) -/

/-- The free-text query criterion: case-insensitive substring match against
name, description, address, or (when present) curriculum. -/
def matchesQuery (q : String) (p : Preschool) : Bool :=
  let lq := lowerStr q
  jsIncludes (lowerStr p.name) lq ||
  jsIncludes (lowerStr p.description) lq ||
  jsIncludes (lowerStr p.address) lq ||
  (match p.curriculum with
   | some c => jsIncludes (lowerStr c) lq
   | none => false)

/-- The minimum-rating criterion: p.rating >= filters.minRating. -/
def minRatingOk (r : ℚ) (p : Preschool) : Bool := decide (r ≤ p.rating)

/-- The age-range criterion: p.ageRange && p.ageRange.includes(filters.ageRange).
Note this is a case-sensitive containment in the source. -/
def ageRangeOk (a : String) (p : Preschool) : Bool :=
  match p.ageRange with
  | some ar => jsIncludes ar a
  | none => false

/-- The curriculum criterion: case-insensitive substring containment, guarded
on the record having a curriculum. -/
def curriculumOk (c : String) (p : Preschool) : Bool :=
  match p.curriculum with
  | some pc => jsIncludes (lowerStr pc) (lowerStr c)
  | none => false

/-- The price-range criterion: p.tuition && p.tuition.includes(filters.priceRange),
a case-sensitive containment in the source. -/
def priceOk (v : String) (p : Preschool) : Bool :=
  match p.tuition with
  | some t => jsIncludes t v
  | none => false

/-- One conditional filtering stage guarded by JS string truthiness:
"if (o) filtered = filtered.filter(f o)". -/
def stageStr (o : Option String) (f : String → Preschool → Bool)
    (l : List Preschool) : List Preschool :=
  match o with
  | none => l
  | some s => if s = "" then l else l.filter (f s)

/-- One conditional filtering stage guarded by JS number truthiness:
"if (o) filtered = filtered.filter(f o)" where 0 is falsy. -/
def stageRat (o : Option ℚ) (f : ℚ → Preschool → Bool)
    (l : List Preschool) : List Preschool :=
  match o with
  | none => l
  | some r => if r = 0 then l else l.filter (f r)

/-- The conjunctive filtering section of searchPreschools: the query stage
followed by the four structured-filter stages, in source order. -/
def searchFilter (query : Option String) (filters : SearchFilters)
    (ps : List Preschool) : List Preschool :=
  let filtered := ps
  let filtered := stageStr query (fun q p => matchesQuery q p) filtered
  let filtered := stageRat filters.minRating minRatingOk filtered
  let filtered := stageStr filters.ageRange ageRangeOk filtered
  let filtered := stageStr filters.curriculum curriculumOk filtered
  let filtered := stageStr filters.priceRange priceOk filtered
  filtered

/-! ## Pagination (PreschoolService.searchPreschools, lines 101-111) -/

/-- Embedding of l.slice(s, e) for 0 ≤ s ≤ e. -/
def jsSlice (l : List α) (s e : ℕ) : List α := (l.drop s).take (e - s)

/-- Embedding of Math.ceil(n / limit) on JS numbers: none encodes the
non-finite result (Infinity or NaN) produced when limit is 0. -/
def jsCeilDivOpt (n limit : ℕ) : Option ℕ :=
  if limit = 0 then none else some ((n + limit - 1) / limit)

/-- The result shape returned by searchPreschools. -/
structure SearchResult (α : Type) where
  results : List α
  totalCount : ℕ
  page : ℕ
  totalPages : Option ℕ
deriving DecidableEq, Repr

/-- The pagination section of searchPreschools: startIndex = (page-1)*limit,
endIndex = page*limit, slice, counts. -/
def searchPaginate (l : List α) (page limit : ℕ) : SearchResult α :=
  { results := jsSlice l ((page - 1) * limit) (page * limit)
    totalCount := l.length
    page := page
    totalPages := jsCeilDivOpt l.length limit }

/-- searchPreschools (mock-data path): filter then paginate. -/
def searchPreschools (query : Option String) (filters : SearchFilters)
    (ps : List Preschool) (page limit : ℕ) : SearchResult Preschool :=
  searchPaginate (searchFilter query filters ps) page limit


/-! ## C1: the conjunctive search filter -/

/-- A record satisfies every active criterion of a search request: for each
criterion that is present and non-empty (JS truthiness), the corresponding
test holds on the record. -/
def SatisfiesSearch (query : Option String) (F : SearchFilters) (p : Preschool) : Prop :=
  (∀ q, query = some q → q ≠ "" → matchesQuery q p = true) ∧
  (∀ r, F.minRating = some r → r ≠ 0 → minRatingOk r p = true) ∧
  (∀ a, F.ageRange = some a → a ≠ "" → ageRangeOk a p = true) ∧
  (∀ c, F.curriculum = some c → c ≠ "" → curriculumOk c p = true) ∧
  (∀ v, F.priceRange = some v → v ≠ "" → priceOk v p = true)

theorem stageStr_sublist (o : Option String) (f : String → Preschool → Bool)
    (l : List Preschool) : (stageStr o f l).Sublist l := by
  cases o with
  | none => exact List.Sublist.refl l
  | some s =>
    by_cases hs : s = "" <;> simp [stageStr, hs]

theorem stageRat_sublist (o : Option ℚ) (f : ℚ → Preschool → Bool)
    (l : List Preschool) : (stageRat o f l).Sublist l := by
  cases o with
  | none => exact List.Sublist.refl l
  | some r =>
    by_cases hr : r = 0 <;> simp [stageRat, hr]

theorem mem_stageStr {o : Option String} {f : String → Preschool → Bool}
    {l : List Preschool} {p : Preschool} :
    p ∈ stageStr o f l ↔ p ∈ l ∧ ∀ s, o = some s → s ≠ "" → f s p = true := by
  cases o with
  | none => simp [stageStr]
  | some s =>
    by_cases hs : s = ""
    · subst hs; simp [stageStr]
    · simp only [stageStr, if_neg hs, List.mem_filter, Option.some.injEq]
      constructor
      · rintro ⟨hmem, hf⟩
        refine ⟨hmem, ?_⟩
        intro t hts _
        subst hts
        exact hf
      · rintro ⟨hmem, hall⟩
        exact ⟨hmem, hall s rfl hs⟩

theorem mem_stageRat {o : Option ℚ} {f : ℚ → Preschool → Bool}
    {l : List Preschool} {p : Preschool} :
    p ∈ stageRat o f l ↔ p ∈ l ∧ ∀ r, o = some r → r ≠ 0 → f r p = true := by
  cases o with
  | none => simp [stageRat]
  | some r =>
    by_cases hr : r = 0
    · subst hr; simp [stageRat]
    · simp only [stageRat, if_neg hr, List.mem_filter, Option.some.injEq]
      constructor
      · rintro ⟨hmem, hf⟩
        refine ⟨hmem, ?_⟩
        intro t hts _
        subst hts
        exact hf
      · rintro ⟨hmem, hall⟩
        exact ⟨hmem, hall r rfl hr⟩

/-- C1 (amended): the search filter returns exactly the sub-sequence of
records that satisfy every active criterion — text query, minimum rating,
age range (case-SENSITIVE substring containment in the record's age-range
text), curriculum, price range — with absent or empty criteria skipped, and
the result preserves the input's relative order (it is a sublist). -/
theorem searchFilter_conjunctive_order_preserving (query : Option String)
    (F : SearchFilters) (ps : List Preschool) :
    (searchFilter query F ps).Sublist ps ∧
    ∀ p, p ∈ searchFilter query F ps ↔ p ∈ ps ∧ SatisfiesSearch query F p := by
  constructor
  · exact ((((stageStr_sublist _ _ _).trans (stageStr_sublist _ _ _)).trans
      (stageStr_sublist _ _ _)).trans (stageRat_sublist _ _ _)).trans
      (stageStr_sublist _ _ _)
  · intro p
    show p ∈ stageStr _ _ (stageStr _ _ (stageStr _ _ (stageRat _ _ (stageStr _ _ ps)))) ↔ _
    simp only [mem_stageStr, mem_stageRat, SatisfiesSearch]
    tauto

/-- The record used by the C1 counterexample: its age-range text is
"2-5 years" (lower case). -/
def cexAgeRec : Preschool :=
  { id := "c1", name := "A", description := "B", address := "C",
    city := none, zip_code := none, rating := 4, reviewCount := 10,
    tuition := none, ageRange := some "2-5 years", curriculum := none,
    program_type := none, features := [] }

/-- The filter specification used by the C1 counterexample: only the
age-range criterion is active, with value "YEARS". -/
def cexAgeFilters : SearchFilters := ⟨none, some "YEARS", none, none⟩

/-- C1 counterexample: the claim says the age-range criterion is a
case-insensitive substring containment, but the source compares without
lowering. The record with age-range "2-5 years" and the filter "YEARS"
satisfy case-insensitive containment, yet the filter drops the record. -/
theorem searchFilter_ageRange_case_sensitive_cex :
    searchFilter none cexAgeFilters [cexAgeRec] = [] ∧
    jsIncludes (lowerStr "2-5 years") (lowerStr "YEARS") = true := by decide

/-! ## C2 and C8: pagination -/

theorem ceilDiv_mul_bounds (n limit : ℕ) (h : 0 < limit) :
    n ≤ ((n + limit - 1) / limit) * limit ∧
    ((n + limit - 1) / limit) * limit < n + limit := by
  have hmod := Nat.div_add_mod (n + limit - 1) limit
  have hlt : (n + limit - 1) % limit < limit := Nat.mod_lt _ h
  rw [Nat.mul_comm ((n + limit - 1) / limit) limit]
  generalize limit * ((n + limit - 1) / limit) = X at hmod ⊢
  omega

theorem pagesConcat_take (l : List α) (limit : ℕ) (n : ℕ) :
    (List.range n).flatMap (fun i => jsSlice l (i * limit) ((i + 1) * limit)) =
      l.take (n * limit) := by
  induction n with
  | zero => simp
  | succ n ih =>
    rw [List.range_succ, List.flatMap_append, ih]
    have h1 : (n + 1) * limit - n * limit = limit := by ring_nf; omega
    have h2 : (n + 1) * limit = n * limit + limit := by ring
    simp only [List.flatMap_cons, List.flatMap_nil, List.append_nil, jsSlice]
    rw [h1, h2, List.take_add]

/-- C2 (confirmed): for every input sequence and limit > 0 there is a tp
with: every page reports totalPages = tp; tp is the ceiling of
length / limit (characterized by length ≤ tp·limit < length + limit);
concatenating the items of pages 1..tp reconstructs the input exactly in
order; and any page beyond tp yields empty items with the same totalCount
and totalPages. -/
theorem paginate_ceil_partition {α : Type} (l : List α) (limit : ℕ) (h : 0 < limit) :
    ∃ tp : ℕ,
      (∀ page, (searchPaginate l page limit).totalPages = some tp) ∧
      l.length ≤ tp * limit ∧ tp * limit < l.length + limit ∧
      (List.range tp).flatMap (fun i => (searchPaginate l (i + 1) limit).results) = l ∧
      ∀ page, tp < page →
        (searchPaginate l page limit).results = [] ∧
        (searchPaginate l page limit).totalCount = l.length ∧
        (searchPaginate l page limit).totalPages = some tp := by
  refine ⟨(l.length + limit - 1) / limit, ?_, (ceilDiv_mul_bounds l.length limit h).1,
    (ceilDiv_mul_bounds l.length limit h).2, ?_, ?_⟩
  · intro page
    simp [searchPaginate, jsCeilDivOpt, h.ne']
  · have hres : ∀ i : ℕ, (searchPaginate l (i + 1) limit).results =
        jsSlice l (i * limit) ((i + 1) * limit) := by
      intro i
      simp [searchPaginate, Nat.add_sub_cancel]
    simp only [hres, pagesConcat_take]
    exact List.take_of_length_le (ceilDiv_mul_bounds l.length limit h).1
  · intro page hpage
    refine ⟨?_, rfl, by simp [searchPaginate, jsCeilDivOpt, h.ne']⟩
    have hge : l.length ≤ (page - 1) * limit := by
      calc l.length ≤ ((l.length + limit - 1) / limit) * limit :=
            (ceilDiv_mul_bounds l.length limit h).1
        _ ≤ (page - 1) * limit := Nat.mul_le_mul_right _ (by omega)
    simp [searchPaginate, jsSlice, List.drop_eq_nil_of_le hge]

/-- Witness for paginate_ceil_partition at the sequence [0,1,2,3,4] with
limit 2. -/
theorem paginate_ceil_partition_witness :
    0 < 2 ∧ ∃ tp : ℕ,
      (∀ page, (searchPaginate ([0,1,2,3,4] : List ℕ) page 2).totalPages = some tp) ∧
      ([0,1,2,3,4] : List ℕ).length ≤ tp * 2 ∧
      tp * 2 < ([0,1,2,3,4] : List ℕ).length + 2 ∧
      (List.range tp).flatMap
        (fun i => (searchPaginate ([0,1,2,3,4] : List ℕ) (i + 1) 2).results) = [0,1,2,3,4] ∧
      ∀ page, tp < page →
        (searchPaginate ([0,1,2,3,4] : List ℕ) page 2).results = [] ∧
        (searchPaginate ([0,1,2,3,4] : List ℕ) page 2).totalCount = ([0,1,2,3,4] : List ℕ).length ∧
        (searchPaginate ([0,1,2,3,4] : List ℕ) page 2).totalPages = some tp :=
  ⟨by decide, paginate_ceil_partition [0,1,2,3,4] 2 (by decide)⟩

/-- C8 counterexample: searchPreschools performs no validation of limit.
Called with limit = 0 it does not fail with InvalidArgument (no such failure
path exists in the source); it returns a normal result whose totalPages is
the non-finite JS value Math.ceil(1/0) = Infinity, encoded here as none. -/
theorem searchPreschools_limit_zero_returns_result :
    searchPreschools none noFilters [cexAgeRec] 1 0 =
      { results := [], totalCount := 1, page := 1, totalPages := none } := by decide

/-- C8 (amended): searchPreschools never rejects a non-positive limit; for
limit = 0 it returns a normal result with empty items, the filtered count as
totalCount, and the non-finite totalPages, for every query, filter set,
record set and page. -/
theorem searchPreschools_limit_zero_normal (query : Option String)
    (F : SearchFilters) (ps : List Preschool) (page : ℕ) :
    (searchPreschools query F ps page 0).results = [] ∧
    (searchPreschools query F ps page 0).totalCount = (searchFilter query F ps).length ∧
    (searchPreschools query F ps page 0).totalPages = none := by
  simp [searchPreschools, searchPaginate, jsSlice, jsCeilDivOpt]

/-! ## Match reasons (RecommendationService.generateMatchReasons, part_003 lines 159-197) -/

/-- The preference shape consumed by getRecommendations and
generateMatchReasons: location, minimum rating, preferred curriculum. -/
structure RecPreferences where
  location : Option String
  minRating : Option ℚ
  curriculum : Option String
deriving DecidableEq, Repr

/-- A JS runtime failure: reading a method of an undefined field. -/
inductive JsError where
  | typeError
deriving DecidableEq, Repr

/-- generateMatchReasons, translated push by push from the source: rating
rule (two thresholds, else-chained), curriculum-match rule, review-count
rule, CSPP rule, first-feature rule, then the fallback when nothing fired.
The thresholds 4.5 and 4.0 of the source are the rationals 9/2 and 4. -/
def generateMatchReasons (p : Preschool) (preferences : RecPreferences) : List String :=
  let reasons : List String := []
  let reasons :=
    if mkRat 9 2 ≤ p.rating then reasons ++ ["Top-rated preschool"]
    else if (4 : ℚ) ≤ p.rating then reasons ++ ["Highly rated by parents"]
    else reasons
  let reasons :=
    match preferences.curriculum with
    | some c =>
      if c = "" then reasons
      else
        match p.curriculum with
        | some pc =>
          if jsIncludes (lowerStr pc) (lowerStr c) then
            reasons ++ ["Offers " ++ pc ++ " curriculum"]
          else reasons
        | none => reasons
    | none => reasons
  let reasons :=
    if 50 < p.reviewCount then reasons ++ ["Popular with many positive reviews"]
    else reasons
  let reasons :=
    if p.program_type == some "CSPP" || jsStartsWith p.id "CSPP_" then
      reasons ++ ["California State Preschool Program"]
    else reasons
  let reasons :=
    match p.features with
    | feature :: _ => reasons ++ ["Offers " ++ feature]
    | [] => reasons
  if reasons = [] then ["Matches your preferences"] else reasons

/-- The match-reason sequence exactly as the specification words it: six
rules evaluated in fixed priority order, each independently contributing
zero or one string, concatenated; the fallback appears exactly when no rule
produced output. -/
def matchReasonsSpec (p : Preschool) (preferences : RecPreferences) : List String :=
  let ratingPart : List String :=
    if mkRat 9 2 ≤ p.rating then ["Top-rated preschool"]
    else if (4 : ℚ) ≤ p.rating then ["Highly rated by parents"]
    else []
  let curriculumPart : List String :=
    match preferences.curriculum, p.curriculum with
    | some c, some pc =>
      if c = "" then []
      else if jsIncludes (lowerStr pc) (lowerStr c) then
        ["Offers " ++ pc ++ " curriculum"]
      else []
    | _, _ => []
  let reviewPart : List String :=
    if 50 < p.reviewCount then ["Popular with many positive reviews"] else []
  let csppPart : List String :=
    if p.program_type == some "CSPP" || jsStartsWith p.id "CSPP_" then
      ["California State Preschool Program"]
    else []
  let featurePart : List String :=
    match p.features with
    | feature :: _ => ["Offers " ++ feature]
    | [] => []
  let together := ratingPart ++ curriculumPart ++ reviewPart ++ csppPart ++ featurePart
  if together = [] then ["Matches your preferences"] else together

/-- The record of the specification's example scenario: rating 4.9, sixty
reviews, one feature, no program type, an id without the reserved marker. -/
def exampleMatchRec : Preschool :=
  { id := "p9", name := "Example", description := "E", address := "1 Example Rd",
    city := none, zip_code := none, rating := mkRat 49 10, reviewCount := 60,
    tuition := none, ageRange := none, curriculum := none,
    program_type := none, features := ["Organic meals"] }

/-- Preferences with no criterion supplied. -/
def emptyPreferences : RecPreferences := ⟨none, none, none⟩

theorem ite_fallback_ne_nil (l fb : List String) (hfb : fb ≠ []) :
    (if l = [] then fb else l) ≠ [] := by
  split_ifs with h
  · exact hfb
  · exact h

set_option maxHeartbeats 1000000 in
/-- C4 (confirmed): the match-reason generator returns exactly the ordered
sequence produced by the six specification rules in fixed priority order,
with the fallback appearing exactly when no rule fires, so the result is
never empty; the specification example scenario evaluates to exactly its
stated three reasons. -/
theorem matchReasons_rules_and_fallback (p : Preschool) (preferences : RecPreferences) :
    generateMatchReasons p preferences = matchReasonsSpec p preferences ∧
    generateMatchReasons p preferences ≠ [] ∧
    generateMatchReasons exampleMatchRec emptyPreferences =
      ["Top-rated preschool", "Popular with many positive reviews", "Offers Organic meals"] := by
  have heq : generateMatchReasons p preferences = matchReasonsSpec p preferences := by
    unfold generateMatchReasons matchReasonsSpec
    rcases preferences.curriculum with _ | c <;>
      rcases p.curriculum with _ | pc <;>
        rcases p.features with _ | ⟨feature, fs⟩ <;>
          dsimp only <;> split_ifs <;> simp_all [List.append_assoc]
  have hne : matchReasonsSpec p preferences ≠ [] := by
    simp only [matchReasonsSpec]
    exact ite_fallback_ne_nil _ _ (by simp)
  exact ⟨heq, heq ▸ hne, by decide⟩

/-! ## Recommendations (RecommendationService.getRecommendations, part_003 lines 11-57) -/

/-- A recommendation result: a per-request copy of a record together with
the request-scoped matchReasons attribute. -/
structure RecommendedPreschool where
  record : Preschool
  matchReasons : List String
deriving DecidableEq, Repr

/-- The location criterion of getRecommendations (part_003 lines 26-30):
address, city and zip_code are tried in order with JS short-circuit
disjunction; city and zip_code are read without a presence guard, so a
record lacking them raises a TypeError when the earlier alternatives are
false. -/
def locationOk (loc : String) (p : Preschool) : Except JsError Bool :=
  if jsIncludes (lowerStr p.address) (lowerStr loc) then .ok true
  else
    match p.city with
    | none => .error .typeError
    | some c =>
      if jsIncludes (lowerStr c) (lowerStr loc) then .ok true
      else
        match p.zip_code with
        | none => .error .typeError
        | some z => .ok (jsIncludes z loc)

/-- Array.prototype.filter with a predicate that may raise: the elements are
visited in order and the first raise aborts the whole call. -/
def filterE (f : α → Except ε Bool) : List α → Except ε (List α)
  | [] => .ok []
  | x :: xs => do
    let b ← f x
    let r ← filterE f xs
    pure (if b then x :: r else r)

/-- getRecommendations (mock-data path): location / minimum-rating /
curriculum filters (the latter two have the same guard-and-test shape as the
search filters, so the stage helpers are reused), stable sort by rating
descending, slice(0, limit), and matchReasons attached to each result copy. -/
def getRecommendations (preferences : RecPreferences) (limit : ℕ)
    (ps : List Preschool) : Except JsError (List RecommendedPreschool) := do
  let filtered := ps
  let filtered ←
    match preferences.location with
    | some loc => if loc = "" then pure filtered else filterE (locationOk loc) filtered
    | none => pure filtered
  let filtered := stageRat preferences.minRating minRatingOk filtered
  let filtered := stageStr preferences.curriculum curriculumOk filtered
  let sorted := filtered.mergeSort (fun a b => decide (b.rating ≤ a.rating))
  pure ((sorted.take limit).map (fun p => ⟨p, generateMatchReasons p preferences⟩))

theorem locationOk_isOk {loc : String} {p : Preschool}
    (hc : p.city.isSome = true) (hz : p.zip_code.isSome = true) :
    ∃ b, locationOk loc p = .ok b := by
  unfold locationOk
  rcases hcv : p.city with _ | c
  · rw [hcv] at hc; simp at hc
  · rcases hzv : p.zip_code with _ | z
    · rw [hzv] at hz; simp at hz
    · dsimp only
      split_ifs <;> exact ⟨_, rfl⟩

theorem filterE_ok {f : α → Except ε Bool} {l : List α}
    (h : ∀ x ∈ l, ∃ b, f x = .ok b) : ∃ r, filterE f l = .ok r := by
  induction l with
  | nil => exact ⟨[], rfl⟩
  | cons x xs ih =>
    obtain ⟨b, hb⟩ := h x (List.mem_cons_self x xs)
    obtain ⟨r, hr⟩ := ih (fun y hy => h y (List.mem_cons_of_mem x hy))
    refine ⟨if b then x :: r else r, ?_⟩
    rw [filterE, hb]
    show Except.bind (filterE f xs) _ = _
    rw [hr]
    rfl

/-! ## The built-in fallback record set (part_003 lines 219-430).
The six hardcoded records carry only the fields this embedding uses; their
phone, website, hours, images and reviews fields are never read by any
embedded flow and are omitted. None of them has a city, zip_code or
program_type field. -/

/-- Fallback record p1, Sunshine Preschool. -/
def fallbackP1 : Preschool :=
  { id := "p1", name := "Sunshine Preschool",
    description := "A nurturing environment where children learn through play and discovery. Our curriculum focuses on social-emotional development, early literacy, and STEM exploration.",
    address := "123 Main St, Palo Alto, CA 94301",
    city := none, zip_code := none, rating := mkRat 47 10, reviewCount := 128,
    tuition := some "$1,500-$1,800/month", ageRange := some "2-5 years",
    curriculum := some "Play-based, Montessori-inspired", program_type := none,
    features := ["Outdoor playground", "Organic meals included",
                 "Multilingual staff", "Music and art programs"] }

/-- Fallback record p2, Little Explorers Academy. -/
def fallbackP2 : Preschool :=
  { id := "p2", name := "Little Explorers Academy",
    description := "An innovative preschool focused on project-based learning and outdoor education. We encourage children to explore, question, and discover through hands-on activities.",
    address := "456 Oak Ave, Menlo Park, CA 94025",
    city := none, zip_code := none, rating := mkRat 45 10, reviewCount := 85,
    tuition := some "$1,700-$2,000/month", ageRange := some "18 months-5 years",
    curriculum := some "Reggio Emilia, Project-based", program_type := none,
    features := ["Nature-based learning", "Large outdoor space",
                 "STEM curriculum", "Field trips"] }

/-- Fallback record p3, Montessori Garden. -/
def fallbackP3 : Preschool :=
  { id := "p3", name := "Montessori Garden",
    description := "A true Montessori experience with certified teachers and a carefully prepared environment. Children progress at their own pace through individualized learning plans.",
    address := "789 Pine Ln, Palo Alto, CA 94303",
    city := none, zip_code := none, rating := mkRat 48 10, reviewCount := 156,
    tuition := some "$1,900-$2,200/month", ageRange := some "18 months-6 years",
    curriculum := some "Authentic Montessori", program_type := none,
    features := ["AMI-certified teachers", "Montessori materials",
                 "Mixed-age classrooms", "Foreign language instruction"] }

/-- Fallback record p4, Bright Horizons. -/
def fallbackP4 : Preschool :=
  { id := "p4", name := "Bright Horizons",
    description := "A national chain with a strong local presence, offering balanced education for children with a focus on social development and kindergarten readiness.",
    address := "321 Maple Dr, Menlo Park, CA 94025",
    city := none, zip_code := none, rating := mkRat 43 10, reviewCount := 210,
    tuition := some "$1,600-$1,900/month", ageRange := some "6 weeks-5 years",
    curriculum := some "Balanced learning approach", program_type := none,
    features := ["Extended hours", "Infant care available",
                 "Summer programs", "Corporate partnerships"] }

/-- Fallback record p5, Creative Kids Cooperative. -/
def fallbackP5 : Preschool :=
  { id := "p5", name := "Creative Kids Cooperative",
    description := "A parent-participation preschool where families are actively involved in the classroom. Emphasizes creativity, community, and parent education.",
    address := "567 Willow Way, Palo Alto, CA 94306",
    city := none, zip_code := none, rating := mkRat 46 10, reviewCount := 72,
    tuition := some "$900-$1,200/month", ageRange := some "2-5 years",
    curriculum := some "Play-based, Cooperative", program_type := none,
    features := ["Parent participation", "Lower tuition",
                 "Strong community", "Art-focused curriculum"] }

/-- Fallback record p6, Little Scholars Preparatory. -/
def fallbackP6 : Preschool :=
  { id := "p6", name := "Little Scholars Preparatory",
    description := "An academically-focused preschool that prepares children for success in elementary school through structured learning activities and assessments.",
    address := "890 Cedar St, Menlo Park, CA 94025",
    city := none, zip_code := none, rating := mkRat 42 10, reviewCount := 95,
    tuition := some "$2,000-$2,300/month", ageRange := some "3-5 years",
    curriculum := some "Academic, Structured", program_type := none,
    features := ["Academic readiness focus", "Regular assessments",
                 "Reading and math programs", "Computer lab"] }

/-- The fallback record set returned by getMockPreschools when the
warehouse is empty. -/
def fallbackPreschools : List Preschool :=
  [fallbackP1, fallbackP2, fallbackP3, fallbackP4, fallbackP5, fallbackP6]

/-- C10 (confirmed): when every record of the data set carries both a city
and a zip_code, a recommendation request with any location preference
completes without error; the built-in fallback records all lack both
fields; and a concrete location-filtered recommendation over the fallback
set raises a TypeError instead of returning a result list. -/
theorem recommendations_location_requires_city_zip
    (preferences : RecPreferences) (limit : ℕ) (ps : List Preschool)
    (h : ∀ p ∈ ps, p.city.isSome = true ∧ p.zip_code.isSome = true) :
    (getRecommendations preferences limit ps).isOk = true ∧
    (∀ p ∈ fallbackPreschools, p.city = none ∧ p.zip_code = none) ∧
    getRecommendations ⟨some "Springfield", none, none⟩ 5 fallbackPreschools =
      .error .typeError := by
  refine ⟨?_, by decide, by rfl⟩
  unfold getRecommendations
  rcases preferences.location with _ | loc
  · rfl
  · dsimp only
    by_cases hl : loc = ""
    · subst hl
      rfl
    · obtain ⟨r, hr⟩ :=
        filterE_ok (fun p hp => @locationOk_isOk loc p (h p hp).1 (h p hp).2)
      rw [if_neg hl, hr]
      rfl

/-- A record carrying both a city and a zip_code, used by the C10 witness. -/
def demoCityRec : Preschool :=
  { id := "d1", name := "Demo", description := "D", address := "1 Demo St",
    city := some "Palo Alto", zip_code := some "94301", rating := 4,
    reviewCount := 10, tuition := none, ageRange := none, curriculum := none,
    program_type := none, features := [] }

/-- Witness for recommendations_location_requires_city_zip at a one-record
set whose record has both fields, with a location preference supplied. -/
theorem recommendations_location_requires_city_zip_witness :
    (∀ p ∈ [demoCityRec], p.city.isSome = true ∧ p.zip_code.isSome = true) ∧
    ((getRecommendations ⟨some "Nowhere", none, none⟩ 5 [demoCityRec]).isOk = true ∧
     (∀ p ∈ fallbackPreschools, p.city = none ∧ p.zip_code = none) ∧
     getRecommendations ⟨some "Springfield", none, none⟩ 5 fallbackPreschools =
       .error .typeError) :=
  ⟨by decide, recommendations_location_requires_city_zip
    ⟨some "Nowhere", none, none⟩ 5 [demoCityRec] (by decide)⟩

/-! ## Featured listing (RecommendationService.getFeaturedPreschools, part_003 lines 88-105) -/

/-- The featured score of a record: rating times the natural logarithm of
reviewCount + 1 (source lines 100-101). -/
noncomputable def popScore (p : Preschool) : ℝ :=
  (p.rating : ℝ) * Real.log ((p.reviewCount : ℝ) + 1)

/-- The comparator of the featured sort: the source comparator
(a, b) => bScore - aScore orders a before b exactly when bScore ≤ aScore. -/
noncomputable def popLe (a b : Preschool) : Bool := decide (popScore b ≤ popScore a)

/-- getFeaturedPreschools (mock path): stable sort of a copy of the record
set by featured score descending, then slice(0, limit). -/
noncomputable def getFeaturedPreschools (ps : List Preschool) (limit : ℕ) : List Preschool :=
  (ps.mergeSort popLe).take limit

theorem popLe_trans (a b c : Preschool) (hab : popLe a b = true)
    (hbc : popLe b c = true) : popLe a c = true := by
  simp only [popLe, decide_eq_true_eq] at *
  exact le_trans hbc hab

theorem popLe_total (a b : Preschool) : (popLe a b || popLe b a) = true := by
  simp only [popLe, Bool.or_eq_true, decide_eq_true_eq]
  exact le_total (popScore b) (popScore a)

/-- C3 (confirmed): the featured listing equals the first limit elements of
a sequence s that is a permutation of the record set, is sorted in
descending order of the popularity score rating * ln(reviewCount + 1), and
is stable: any two records that appear in this order in the input with equal
popularity score appear in the same order in s. -/
theorem featured_popularity_stable (ps : List Preschool) (limit : ℕ) :
    ∃ s : List Preschool,
      s.Perm ps ∧
      s.Pairwise (fun a b => popScore b ≤ popScore a) ∧
      (∀ a b : Preschool, List.Sublist [a, b] ps → popScore a = popScore b →
        List.Sublist [a, b] s) ∧
      getFeaturedPreschools ps limit = s.take limit := by
  refine ⟨ps.mergeSort popLe, List.mergeSort_perm ps popLe, ?_, ?_, rfl⟩
  · exact (List.sorted_mergeSort popLe_trans popLe_total ps).imp
      (fun hab => of_decide_eq_true hab)
  · intro a b hsub hscore
    refine List.sublist_mergeSort popLe_trans popLe_total ?_ hsub
    refine List.pairwise_cons.mpr ⟨?_, List.pairwise_singleton _ _⟩
    intro x hx
    rw [List.mem_singleton] at hx
    subst hx
    simp only [popLe, decide_eq_true_eq]
    exact le_of_eq hscore.symm

/-! ## The geo data module (part_002, lines 1377-1477) -/

/-- A warehouse record as read by the geo functions of the data module.
Only the fields the embedded flow reads are modelled; a record either has a
coordinate (the stored string is truthy and parseFloat yields its value,
embedded as some value) or lacks it (none). -/
structure GeoPreschool where
  id : String
  name : String
  latitude : Option ℝ
  longitude : Option ℝ

/-- A nearby result: a per-request copy of a record together with the
request-scoped distance attribute. -/
structure GeoResult where
  record : GeoPreschool
  distance : ℝ

/-- toRadians (part_002 lines 1475-1477). -/
noncomputable def toRadians (degrees : ℝ) : ℝ := degrees * Real.pi / 180

/-- Embedding of Math.atan2(y, x). -/
noncomputable def jsAtan2 (y x : ℝ) : ℝ :=
  if 0 < x then Real.arctan (y / x)
  else if x < 0 then
    (if 0 ≤ y then Real.arctan (y / x) + Real.pi else Real.arctan (y / x) - Real.pi)
  else if 0 < y then Real.pi / 2
  else if y < 0 then -(Real.pi / 2)
  else 0

/-- calculateDistance (part_002 lines 1455-1467): the Haversine formula with
Earth radius 3958.8 miles. The source performs no validation of coordinate
ranges anywhere and has no failure path. -/
noncomputable def calculateDistance (lat1 lon1 lat2 lon2 : ℝ) : ℝ :=
  let R : ℝ := 3958.8
  let dLat := toRadians (lat2 - lat1)
  let dLon := toRadians (lon2 - lon1)
  let a := Real.sin (dLat / 2) * Real.sin (dLat / 2) +
    Real.cos (toRadians lat1) * Real.cos (toRadians lat2) *
    (Real.sin (dLon / 2) * Real.sin (dLon / 2))
  let c := 2 * jsAtan2 (Real.sqrt a) (Real.sqrt (1 - a))
  R * c

/-- Embedding of parseFloat(d.toFixed(1)): round to one decimal place,
halves rounding up as the ECMAScript toFixed does for the positive values
arising here. -/
noncomputable def jsToFixed1 (x : ℝ) : ℝ := (round (10 * x) : ℤ) / 10

/-- The decoration step of getPreschoolsNearLocation: a copy of the record
with the rounded distance from the origin attached. -/
noncomputable def decorateGeo (latitude longitude : ℝ) (p : GeoPreschool) : GeoResult :=
  ⟨p, jsToFixed1
    (calculateDistance latitude longitude (p.latitude.getD 0) (p.longitude.getD 0))⟩

/-- The comparator of the nearby sort: (a, b) => a.distance - b.distance
orders a before b exactly when a.distance ≤ b.distance. -/
noncomputable def distLe (a b : GeoResult) : Bool := decide (a.distance ≤ b.distance)

/-- getPreschoolsNearLocation (part_002 lines 1419-1444): keep the records
having both coordinates, decorate each with the rounded distance from the
origin, keep those whose attached distance is within maxDistance, and sort
by the attached distance ascending (stable). -/
noncomputable def getPreschoolsNearLocation (latitude longitude maxDistance : ℝ)
    (ps : List GeoPreschool) : List GeoResult :=
  ((((ps.filter (fun p => p.latitude.isSome && p.longitude.isSome)).map
      (decorateGeo latitude longitude))
    |>.filter (fun x => decide (x.distance ≤ maxDistance)))
    |>.mergeSort distLe)

/-- getNearbyPreschools (part_003 lines 125-133): the data-module flow, then
slice(0, limit). -/
noncomputable def getNearbyPreschools (latitude longitude radius : ℝ) (limit : ℕ)
    (ps : List GeoPreschool) : List GeoResult :=
  (getPreschoolsNearLocation latitude longitude radius ps).take limit

/-! ## C6: symmetry and zero of the distance -/

theorem toRadians_sub_neg (u v : ℝ) : toRadians (u - v) = -(toRadians (v - u)) := by
  unfold toRadians; ring

theorem sin_sq_toRadians_symm (u v : ℝ) :
    Real.sin (toRadians (u - v) / 2) * Real.sin (toRadians (u - v) / 2) =
    Real.sin (toRadians (v - u) / 2) * Real.sin (toRadians (v - u) / 2) := by
  rw [toRadians_sub_neg, neg_div, Real.sin_neg]
  ring

theorem calculateDistance_self (lat lon : ℝ) :
    calculateDistance lat lon lat lon = 0 := by
  simp only [calculateDistance, jsAtan2, sub_self]
  have h0 : toRadians 0 = 0 := by unfold toRadians; ring
  rw [h0]
  norm_num [Real.sin_zero, Real.sqrt_zero, Real.sqrt_one, Real.arctan_zero]

/-- C6 (confirmed): for all valid coordinate pairs the great-circle distance
is symmetric, and the distance of a point to itself is zero. -/
theorem calculateDistance_symm_and_self (lat1 lon1 lat2 lon2 : ℝ)
    (h1 : -90 ≤ lat1) (h2 : lat1 ≤ 90) (h3 : -180 ≤ lon1) (h4 : lon1 ≤ 180)
    (h5 : -90 ≤ lat2) (h6 : lat2 ≤ 90) (h7 : -180 ≤ lon2) (h8 : lon2 ≤ 180) :
    calculateDistance lat1 lon1 lat2 lon2 = calculateDistance lat2 lon2 lat1 lon1 ∧
    calculateDistance lat1 lon1 lat1 lon1 = 0 := by
  refine ⟨?_, calculateDistance_self lat1 lon1⟩
  simp only [calculateDistance]
  rw [sin_sq_toRadians_symm lat2 lat1, sin_sq_toRadians_symm lon2 lon1,
    mul_comm (Real.cos (toRadians lat1)) (Real.cos (toRadians lat2))]

/-- Witness for calculateDistance_symm_and_self at (10, 20) and (30, 40). -/
theorem calculateDistance_symm_and_self_witness :
    ((-90 : ℝ) ≤ 10 ∧ (10 : ℝ) ≤ 90 ∧ (-180 : ℝ) ≤ 20 ∧ (20 : ℝ) ≤ 180 ∧
     (-90 : ℝ) ≤ 30 ∧ (30 : ℝ) ≤ 90 ∧ (-180 : ℝ) ≤ 40 ∧ (40 : ℝ) ≤ 180) ∧
    (calculateDistance 10 20 30 40 = calculateDistance 30 40 10 20 ∧
     calculateDistance 10 20 10 20 = 0) :=
  ⟨⟨by norm_num, by norm_num, by norm_num, by norm_num, by norm_num, by norm_num,
    by norm_num, by norm_num⟩,
   calculateDistance_symm_and_self 10 20 30 40 (by norm_num) (by norm_num)
     (by norm_num) (by norm_num) (by norm_num) (by norm_num) (by norm_num) (by norm_num)⟩

/-! ## C7: no coordinate validation, no failure -/

/-- Any element of the nearby result wraps a record of the input set. -/
theorem mem_nearby_record {lat lon radius : ℝ} {ps : List GeoPreschool}
    {x : GeoResult} (hx : x ∈ getPreschoolsNearLocation lat lon radius ps) :
    x.record ∈ ps := by
  unfold getPreschoolsNearLocation at hx
  rw [List.mem_mergeSort, List.mem_filter] at hx
  obtain ⟨hx1, _⟩ := hx
  rw [List.mem_map] at hx1
  obtain ⟨p, hp, hdx⟩ := hx1
  rw [List.mem_filter] at hp
  subst hdx
  exact hp.1

/-- A record whose latitude 100 lies outside [-90, 90]. -/
def outOfRangeRec : GeoPreschool := ⟨"OUT", "Out of range", some 100, some 50⟩

/-- C7 counterexample: the source performs no coordinate-range validation
and has no InvalidCoordinate failure path: with the out-of-range latitude
100 as origin the nearby flow computes distances and returns a normal,
non-empty result (the record at the origin itself, at distance zero)
instead of failing. -/
theorem geo_no_coordinate_validation_cex :
    getPreschoolsNearLocation 100 50 5 [outOfRangeRec] = [⟨outOfRangeRec, 0⟩] ∧
    ¬((100 : ℝ) ≤ 90) := by
  constructor
  · unfold getPreschoolsNearLocation
    have h1 : List.filter
        (fun p : GeoPreschool => p.latitude.isSome && p.longitude.isSome)
        [outOfRangeRec] = [outOfRangeRec] := rfl
    rw [h1]
    have h2 : List.map (decorateGeo 100 50) [outOfRangeRec] =
        [⟨outOfRangeRec, 0⟩] := by
      simp only [List.map_cons, List.map_nil, decorateGeo]
      have hc : calculateDistance 100 50 (outOfRangeRec.latitude.getD 0)
          (outOfRangeRec.longitude.getD 0) = 0 := by
        show calculateDistance 100 50 100 50 = 0
        exact calculateDistance_self 100 50
      rw [hc]
      unfold jsToFixed1
      norm_num
    rw [h2]
    have h3 : List.filter (fun x : GeoResult => decide (x.distance ≤ (5 : ℝ)))
        [⟨outOfRangeRec, 0⟩] = [⟨outOfRangeRec, 0⟩] := by
      simp only [List.filter_cons, List.filter_nil, decide_eq_true_eq]
      norm_num
    rw [h3, List.mergeSort_singleton]
  · norm_num

/-- C7 (amended): the distance computation and the nearby flow perform no
coordinate validation and never fail: for every real origin, in range or
not, the flow returns ordinary decorated copies of input records, and the
distance from any point to itself is zero. -/
theorem geo_distance_total_no_validation (lat lon radius : ℝ)
    (ps : List GeoPreschool) :
    (∀ x ∈ getPreschoolsNearLocation lat lon radius ps, x.record ∈ ps) ∧
    calculateDistance lat lon lat lon = 0 :=
  ⟨fun _ hx => mem_nearby_record hx, calculateDistance_self lat lon⟩

/-! ## C5: the nearby flow -/

theorem distLe_trans (a b c : GeoResult) (hab : distLe a b = true)
    (hbc : distLe b c = true) : distLe a c = true := by
  simp only [distLe, decide_eq_true_eq] at *
  exact le_trans hab hbc

theorem distLe_total (a b : GeoResult) : (distLe a b || distLe b a) = true := by
  simp only [distLe, Bool.or_eq_true, decide_eq_true_eq]
  exact le_total a.distance b.distance

/-- C5 (amended): a result appears in the nearby flow iff it is the
decorated copy of an input record having both coordinates and its attached
ROUNDED (one-decimal, JS toFixed) distance is at most the radius; the
results are ordered by the attached distance ascending; and the nearby
listing truncates that sequence to the first limit elements. -/
theorem nearby_flow_characterization (lat lon radius : ℝ) (limit : ℕ)
    (ps : List GeoPreschool) :
    (∀ x, x ∈ getPreschoolsNearLocation lat lon radius ps ↔
      ((∃ p ∈ ps, p.latitude.isSome = true ∧ p.longitude.isSome = true ∧
        x = decorateGeo lat lon p) ∧ x.distance ≤ radius)) ∧
    (getPreschoolsNearLocation lat lon radius ps).Pairwise
      (fun a b => a.distance ≤ b.distance) ∧
    getNearbyPreschools lat lon radius limit ps =
      (getPreschoolsNearLocation lat lon radius ps).take limit := by
  refine ⟨?_, ?_, rfl⟩
  · intro x
    unfold getPreschoolsNearLocation
    rw [List.mem_mergeSort, List.mem_filter]
    simp only [List.mem_map, List.mem_filter, Bool.and_eq_true, decide_eq_true_eq]
    constructor
    · rintro ⟨⟨p, ⟨hp, hlat, hlon⟩, hpx⟩, hdist⟩
      exact ⟨⟨p, hp, hlat, hlon, hpx.symm⟩, hdist⟩
    · rintro ⟨⟨p, hp, hlat, hlon, hxp⟩, hdist⟩
      exact ⟨⟨p, ⟨hp, hlat, hlon⟩, hxp.symm⟩, hdist⟩
  · exact (List.sorted_mergeSort distLe_trans distLe_total _).imp
      (fun h => of_decide_eq_true h)

/-- The distance from (0,0) to the antipodal point (0,180) of the formula
is exactly the Earth radius times pi. -/
theorem calculateDistance_antipodal :
    calculateDistance 0 0 0 180 = 3958.8 * Real.pi := by
  have h0 : toRadians (0 - 0) = 0 := by unfold toRadians; ring
  have h180 : toRadians (180 - 0) = Real.pi := by unfold toRadians; ring
  have hl : toRadians 0 = 0 := by unfold toRadians; ring
  have hat : jsAtan2 1 0 = Real.pi / 2 := by
    unfold jsAtan2
    norm_num
  simp only [calculateDistance]
  rw [h0, h180, hl]
  norm_num [Real.sin_zero, Real.cos_zero, Real.sin_pi_div_two, Real.sqrt_one,
    Real.sqrt_zero]
  rw [hat]
  ring

/-- Rounding the antipodal distance to one decimal gives exactly 12436.9. -/
theorem jsToFixed1_antipodal : jsToFixed1 (3958.8 * Real.pi) = 124369 / 10 := by
  have hpi1 : (3.141592 : ℝ) < Real.pi := Real.pi_gt_d6
  have hpi2 : Real.pi < (3.141593 : ℝ) := Real.pi_lt_d6
  have h10 : (10 : ℝ) * (3958.8 * Real.pi) = 39588 * Real.pi := by
    rw [← mul_assoc]; norm_num
  have hfloor : round ((39588 : ℝ) * Real.pi) = 124369 := by
    rw [round_eq, Int.floor_eq_iff]
    constructor
    · push_cast
      nlinarith
    · push_cast
      nlinarith
  unfold jsToFixed1
  rw [h10, hfloor]
  norm_num

/-- The raw antipodal distance strictly exceeds 12436.9. -/
theorem antipodal_exceeds_radius :
    (124369 : ℝ) / 10 < calculateDistance 0 0 0 180 := by
  rw [calculateDistance_antipodal]
  nlinarith [Real.pi_gt_d6]

/-- The record at (0, 180), antipodal to the origin (0, 0). -/
def antipodeRec : GeoPreschool := ⟨"ANT", "Antipode", some 0, some 180⟩

/-- C5 counterexample: with origin (0,0) and radius 12436.9 the flow
returns the record at (0,180) - its attached rounded distance is exactly
12436.9 - although its raw GeoDistanceCalculator distance 3958.8 times pi
strictly exceeds the radius: the flow compares the rounded distance, not
the raw distance, against the radius. -/
theorem nearby_rounded_cutoff_cex :
    getPreschoolsNearLocation 0 0 (124369 / 10) [antipodeRec] =
      [⟨antipodeRec, 124369 / 10⟩] ∧
    ¬(calculateDistance 0 0 0 180 ≤ 124369 / 10) := by
  constructor
  · unfold getPreschoolsNearLocation
    have h1 : List.filter
        (fun p : GeoPreschool => p.latitude.isSome && p.longitude.isSome)
        [antipodeRec] = [antipodeRec] := rfl
    rw [h1]
    have h2 : List.map (decorateGeo 0 0) [antipodeRec] =
        [⟨antipodeRec, 124369 / 10⟩] := by
      simp only [List.map_cons, List.map_nil, decorateGeo]
      have hc : calculateDistance 0 0 (antipodeRec.latitude.getD 0)
          (antipodeRec.longitude.getD 0) = 3958.8 * Real.pi := by
        show calculateDistance 0 0 0 180 = 3958.8 * Real.pi
        exact calculateDistance_antipodal
      rw [hc, jsToFixed1_antipodal]
    rw [h2]
    have h3 : List.filter
        (fun x : GeoResult => decide (x.distance ≤ (124369 : ℝ) / 10))
        [⟨antipodeRec, 124369 / 10⟩] = [⟨antipodeRec, 124369 / 10⟩] := by
      simp only [List.filter_cons, List.filter_nil, decide_eq_true_eq]
      norm_num
    rw [h3, List.mergeSort_singleton]
  · push_neg
    exact antipodal_exceeds_radius

/-! ## C9: the flows return the canonical records unchanged -/

theorem searchFilter_sublist (query : Option String) (F : SearchFilters)
    (ps : List Preschool) : (searchFilter query F ps).Sublist ps :=
  ((((stageStr_sublist _ _ _).trans (stageStr_sublist _ _ _)).trans
    (stageStr_sublist _ _ _)).trans (stageRat_sublist _ _ _)).trans
    (stageStr_sublist _ _ _)

theorem search_results_mem {query : Option String} {F : SearchFilters}
    {ps : List Preschool} {page limit : ℕ} {x : Preschool}
    (hx : x ∈ (searchPreschools query F ps page limit).results) : x ∈ ps := by
  unfold searchPreschools searchPaginate jsSlice at hx
  exact (searchFilter_sublist query F ps).subset
    (List.mem_of_mem_drop (List.mem_of_mem_take hx))

theorem exceptBind_ok_eq (a : α) (g : α → Except ε β) :
    (Except.ok a >>= g) = g a := rfl

theorem exceptBind_error_eq (e : ε) (g : α → Except ε β) :
    ((Except.error e : Except ε α) >>= g) = Except.error e := rfl

theorem exceptPure_eq (a : α) : (pure a : Except ε α) = Except.ok a := rfl

theorem filterE_mem {f : α → Except ε Bool} :
    ∀ {l r : List α}, filterE f l = .ok r → ∀ x ∈ r, x ∈ l := by
  intro l
  induction l with
  | nil =>
    intro r h x hx
    rw [filterE] at h
    cases h
    cases hx
  | cons y ys ih =>
    intro r h x hx
    rw [filterE] at h
    cases hfy : f y with
    | error e =>
      rw [hfy, exceptBind_error_eq] at h
      cases h
    | ok b =>
      rw [hfy, exceptBind_ok_eq] at h
      cases hfr : filterE f ys with
      | error e =>
        rw [hfr, exceptBind_error_eq] at h
        cases h
      | ok r2 =>
        rw [hfr, exceptBind_ok_eq, exceptPure_eq] at h
        injection h with h2
        subst h2
        by_cases hb : b = true
        · rw [if_pos hb] at hx
          rcases List.mem_cons.mp hx with hxy | hxr
          · exact hxy ▸ List.mem_cons_self y ys
          · exact List.mem_cons_of_mem y (ih hfr x hxr)
        · rw [if_neg hb] at hx
          exact List.mem_cons_of_mem y (ih hfr x hx)

/-- The location stage of getRecommendations, named for reasoning. -/
def recLocationStage (o : Option String) (l : List Preschool) :
    Except JsError (List Preschool) :=
  match o with
  | some loc => if loc = "" then pure l else filterE (locationOk loc) l
  | none => pure l

/-- The pure tail of getRecommendations after the location stage. -/
def recRest (preferences : RecPreferences) (limit : ℕ)
    (filtered : List Preschool) : List RecommendedPreschool :=
  (((stageStr preferences.curriculum curriculumOk
      (stageRat preferences.minRating minRatingOk filtered)).mergeSort
      (fun a b => decide (b.rating ≤ a.rating))).take limit).map
    (fun p => ⟨p, generateMatchReasons p preferences⟩)

theorem getRecommendations_eq (preferences : RecPreferences) (limit : ℕ)
    (ps : List Preschool) :
    getRecommendations preferences limit ps =
      Except.map (recRest preferences limit)
        (recLocationStage preferences.location ps) := by
  unfold getRecommendations recLocationStage recRest
  rcases preferences.location with _ | loc
  · rfl
  · dsimp only
    by_cases hl : loc = ""
    · subst hl
      rfl
    · simp only [if_neg hl]
      cases hfe : filterE (locationOk loc) ps with
      | error e => rfl
      | ok r => rfl

theorem recRest_record_mem {preferences : RecPreferences} {limit : ℕ}
    {filtered : List Preschool} {x : RecommendedPreschool}
    (hx : x ∈ recRest preferences limit filtered) : x.record ∈ filtered := by
  unfold recRest at hx
  rw [List.mem_map] at hx
  obtain ⟨p, hp, hpx⟩ := hx
  have hp2 := List.mem_mergeSort.mp (List.mem_of_mem_take hp)
  have hp3 := (stageStr_sublist _ _ _).subset hp2
  have hp4 := (stageRat_sublist _ _ _).subset hp3
  rw [← hpx]
  exact hp4

theorem recLocationStage_mem {o : Option String} {l r : List Preschool}
    (h : recLocationStage o l = .ok r) : ∀ x ∈ r, x ∈ l := by
  unfold recLocationStage at h
  rcases o with _ | loc
  · rw [exceptPure_eq] at h
    cases h
    exact fun x hx => hx
  · dsimp only at h
    by_cases hl : loc = ""
    · rw [if_pos hl, exceptPure_eq] at h
      cases h
      exact fun x hx => hx
    · rw [if_neg hl] at h
      exact filterE_mem h

theorem getRecommendations_ok_mem {preferences : RecPreferences} {limit : ℕ}
    {ps : List Preschool} {res : List RecommendedPreschool}
    (h : getRecommendations preferences limit ps = .ok res) :
    ∀ x ∈ res, x.record ∈ ps := by
  rw [getRecommendations_eq] at h
  cases hst : recLocationStage preferences.location ps with
  | error e =>
    rw [hst] at h
    cases h
  | ok filtered =>
    rw [hst] at h
    have hres : recRest preferences limit filtered = res := by
      injection h
    subst hres
    intro x hx
    exact recLocationStage_mem hst x.record (recRest_record_mem hx)

/-- C9 (confirmed): no query flow rewrites the canonical record set: every
element any flow returns is (a wrapper around) a member of the canonical
set itself, all canonical fields unchanged; the request-scoped attributes
distance and matchReasons exist only on the per-request wrapper types
GeoResult and RecommendedPreschool, never on the canonical records. -/
theorem flows_return_canonical_records
    (query : Option String) (F : SearchFilters) (preferences : RecPreferences)
    (ps : List Preschool) (gps : List GeoPreschool) (page limit : ℕ)
    (lat lon radius : ℝ) :
    (∀ x ∈ (searchPreschools query F ps page limit).results, x ∈ ps) ∧
    (∀ res, getRecommendations preferences limit ps = .ok res →
      ∀ x ∈ res, x.record ∈ ps) ∧
    (∀ x ∈ getFeaturedPreschools ps limit, x ∈ ps) ∧
    (∀ x ∈ getNearbyPreschools lat lon radius limit gps, x.record ∈ gps) := by
  refine ⟨?_, ?_, ?_, ?_⟩
  · intro x hx
    exact search_results_mem hx
  · intro res hres x hx
    exact getRecommendations_ok_mem hres x hx
  · intro x hx
    unfold getFeaturedPreschools at hx
    exact List.mem_mergeSort.mp (List.mem_of_mem_take hx)
  · intro x hx
    unfold getNearbyPreschools at hx
    exact mem_nearby_record (List.mem_of_mem_take hx)
